import Mathlib

/-!
Verification of the loan-scoring service in `backend/app/api.py`
(PMDS-Team_XGBoost).

The file shallowly embeds the two request handlers of `api.py`
(`get_prediction` for the HTML form flow at `/predict`, `testing` for the
JSON flow at `/apiTest`), the startup model-loading block, and the
`RequestValidationError` handler.  The helper module `app.helper`
(`parse_request`, `parse_input`, `feature_engineering`, `predict_score`,
`grade_binning`) and the pydantic schemas in `app.models` are not part of
the provided sources, so the handlers are parameterised over those helpers
(a `Helpers` record of abstract functions) and the schemas are modelled
from the specification where a claim needs them concretely.

Python dictionaries are embedded as association lists over a dynamic value
type `Val`, with Python truthiness made explicit, because both handlers
branch on the truthiness of `reqData.get("bureau")`.
-/

/-- Dynamic values as they occur in the request dictionaries of `api.py`:
form fields are strings, a JSON body contributes ints, rationals, booleans,
nested objects and nulls (Python `None`). -/
inductive Val where
  | vstr (s : String)
  | vint (n : Int)
  | vrat (q : ℚ)
  | vbool (b : Bool)
  | vobj (fields : List (String × Val))
  | vnull

/-- Python truthiness of a `Val`: empty strings, zero numbers, `False`,
empty dicts and `None` are falsy, everything else truthy. -/
def Val.truthy : Val → Bool
  | .vstr s => !(s == "")
  | .vint n => !(n == 0)
  | .vrat q => !(q == 0)
  | .vbool b => b
  | .vobj fields => !fields.isEmpty
  | .vnull => false

/-- A Python dict, as an association list (first binding wins). -/
def PyDict : Type := List (String × Val)

/-- `d.get(k)`: `some` the stored value, `none` when the key is absent. -/
def recGet (d : PyDict) (k : String) : Option Val :=
  (d.find? (fun kv => kv.fst == k)).map (fun kv => kv.snd)

/-- Truthiness of `d.get(k)`: Python `None` (absent key) is falsy. -/
def truthyOpt : Option Val → Bool
  | none => false
  | some v => v.truthy

/-- The triple returned by `predict_score` in `app.helper`: raw score,
probability, and boolean loan decision (`score, proba, loan_dec`). -/
structure ScoreResult where
  score : ℚ
  proba : ℚ
  loanDec : Bool

/-- The functions `api.py` imports from `app.helper`.  The module is not in
the provided sources, so the handlers are parameterised over it: every
theorem about a handler holds for all implementations of these helpers. -/
structure Helpers (Feat Model : Type) where
  parse_request : PyDict → PyDict
  parse_input : PyDict → PyDict
  feature_engineering : PyDict → Feat
  predict_score : Feat → Model → ScoreResult
  grade_binning : ℚ → String → String

/-- Modelled from the spec: the optional credit-bureau object
`{loanWithDelay: int, loanNoDelay: int}` of an ApplicantRecord
(`app.models.RequestBody` is not in the provided sources). -/
structure Bureau where
  loanWithDelay : Int
  loanNoDelay : Int

/-- Modelled from the spec: the JSON request schema (ApplicantRecord) with
fields age, income, gender, hasApplied, hasIncome, education, purpose and
an optional bureau object (`app.models.RequestBody` is not in the provided
sources; field list per spec section 6 and the payload examples embedded
in `api.py` lines 123-153). -/
structure RequestBody where
  age : Int
  income : ℚ
  gender : String
  hasApplied : String
  hasIncome : String
  education : String
  purpose : String
  bureau : Option Bureau

/-- `req.dict()` on the pydantic model: every field is present as a key; a
missing/null bureau becomes Python `None`, a present one a two-entry dict. -/
def RequestBody.toDict (r : RequestBody) : PyDict :=
  [("age", Val.vint r.age),
   ("income", Val.vrat r.income),
   ("gender", Val.vstr r.gender),
   ("hasApplied", Val.vstr r.hasApplied),
   ("hasIncome", Val.vstr r.hasIncome),
   ("education", Val.vstr r.education),
   ("purpose", Val.vstr r.purpose),
   ("bureau",
     match r.bureau with
     | none => Val.vnull
     | some b =>
       Val.vobj [("loanWithDelay", Val.vint b.loanWithDelay),
                 ("loanNoDelay", Val.vint b.loanNoDelay)])]

/-- The response of the HTML flow: which template is rendered and the
context passed to it (the handler passes the request object and the grade;
we model the grade entry). -/
structure HtmlResponse where
  page : String
  context : List (String × String)

/-- The `/predict` handler `get_prediction` of `api.py` lines 93-117:
parse the form data, derive features, route on the truthiness of
`reqData.get("bureau")` to one of the two models, bin the probability into
a grade tagged with the chosen variant, and render the approve page iff
the grade is in `['A', 'B']`, with the grade in the template context. -/
def get_prediction {Feat Model : Type} (H : Helpers Feat Model)
    (model_bureau model_no_bureau : Model) (reqData : PyDict) : HtmlResponse :=
  let reqData_parsed := H.parse_request reqData
  let t := H.feature_engineering (H.parse_input reqData_parsed)
  let srGrade :=
    if truthyOpt (recGet reqData "bureau") then
      let sr := H.predict_score t model_bureau
      (sr, H.grade_binning sr.proba "model_bureau")
    else
      let sr := H.predict_score t model_no_bureau
      (sr, H.grade_binning sr.proba "model_no_bureau")
  let grade := srGrade.snd
  let page :=
    if grade = "A" ∨ grade = "B" then "result_approve.html"
    else "result_reject.html"
  ⟨page, [("grade", grade)]⟩

/-- The `/apiTest` handler `testing` of `api.py` lines 119-168: cast the
request body to a dict, derive features, route on the truthiness of
`req_dict.get("bureau")`, and return `{"LoanDecision": loan_dec}`. -/
def testing {Feat Model : Type} (H : Helpers Feat Model)
    (model_bureau model_no_bureau : Model) (req : RequestBody) : PyDict :=
  let req_dict := req.toDict
  let t := H.feature_engineering (H.parse_input req_dict)
  let sr :=
    if truthyOpt (recGet req_dict "bureau") then
      H.predict_score t model_bureau
    else
      H.predict_score t model_no_bureau
  [("LoanDecision", Val.vbool sr.loanDec)]

/-- Claim-side routing condition for the form flow, following the spec's
words: the `bureau` form field is present and non-empty (form values are
strings). -/
def formBureauGiven (d : PyDict) : Bool :=
  match recGet d "bureau" with
  | some (Val.vstr s) => !(s == "")
  | _ => false

/-- Spec-side description of the JSON flow (refinement target for C1):
a record with `bureau` present is scored by the bureau-aware model, one
with `bureau` absent/null by the bureau-absent model, and the response is
exactly the loan decision. -/
def specRoutedJson {Feat Model : Type} (H : Helpers Feat Model)
    (mb mnb : Model) (req : RequestBody) : PyDict :=
  let t := H.feature_engineering (H.parse_input req.toDict)
  match req.bureau with
  | some _ => [("LoanDecision", Val.vbool (H.predict_score t mb).loanDec)]
  | none => [("LoanDecision", Val.vbool (H.predict_score t mnb).loanDec)]

/-- Spec-side description of the HTML flow (refinement target for C1): a
present non-empty bureau field routes to the bureau-aware model with the
binning tagged `model_bureau`, otherwise to the bureau-absent model tagged
`model_no_bureau`; grades A and B select the approve page. -/
def specRoutedHtml {Feat Model : Type} (H : Helpers Feat Model)
    (mb mnb : Model) (d : PyDict) : HtmlResponse :=
  let t := H.feature_engineering (H.parse_input (H.parse_request d))
  let grade :=
    if formBureauGiven d then
      H.grade_binning (H.predict_score t mb).proba "model_bureau"
    else
      H.grade_binning (H.predict_score t mnb).proba "model_no_bureau"
  ⟨if grade = "A" ∨ grade = "B" then "result_approve.html"
    else "result_reject.html",
   [("grade", grade)]⟩

/-- Concrete helper implementation used by the witnesses: the model type is
`Bool`, `predict_score` returns the model itself as the decision, and the
grade depends on the variant tag. -/
def trivHelpers : Helpers Unit Bool where
  parse_request := id
  parse_input := id
  feature_engineering := fun _ => ()
  predict_score := fun _ m => ⟨0, 1/2, m⟩
  grade_binning := fun _ tag => if tag == "model_bureau" then "A" else "C"

/-- The spec's end-to-end scenario 1 payload: bureau data present. -/
def reqWithBureau : RequestBody :=
  ⟨20, 1000000, "Male", "Yes", "Yes", "Diploma", "Working Capital",
   some ⟨0, 0⟩⟩

/-- The spec's end-to-end scenario 2 payload: bureau null. -/
def reqNoBureau : RequestBody :=
  ⟨22, 2000000, "Female", "No", "Yes", "Bachelor Degree", "Investment", none⟩

/-- A decoded form submission whose bureau field holds a non-empty string. -/
def formWithBureau : PyDict :=
  [("age", Val.vstr "20"), ("bureau", Val.vstr "B-123")]

/-- The process-wide state of `api.py`: the two model objects bound at
module scope by the startup block (lines 63-74). -/
structure AppState (Model : Type) where
  model_bureau : Model
  model_no_bureau : Model

/-- State-passing form of the `/predict` handler: the handler body
contains no assignment to the module-level model names (no `global`
statement, no attribute write), so its embedding reads the models from the
state and returns the state as it was. -/
def get_predictionS {Feat Model : Type} (H : Helpers Feat Model)
    (st : AppState Model) (reqData : PyDict) :
    HtmlResponse × AppState Model :=
  (get_prediction H st.model_bureau st.model_no_bureau reqData, st)

/-- State-passing form of the `/apiTest` handler; as with
`get_predictionS`, the body never writes the module-level state. -/
def testingS {Feat Model : Type} (H : Helpers Feat Model)
    (st : AppState Model) (req : RequestBody) : PyDict × AppState Model :=
  (testing H st.model_bureau st.model_no_bureau req, st)

/-- The internal quantities of one `/predict` run (`api.py` lines
102-108): the `predict_score` triple (score, probability, decision) and
the grade, for the routed variant. -/
def scoreParts {Feat Model : Type} (H : Helpers Feat Model)
    (st : AppState Model) (d : PyDict) : ScoreResult × String :=
  let t := H.feature_engineering (H.parse_input (H.parse_request d))
  if truthyOpt (recGet d "bureau") then
    let sr := H.predict_score t st.model_bureau
    (sr, H.grade_binning sr.proba "model_bureau")
  else
    let sr := H.predict_score t st.model_no_bureau
    (sr, H.grade_binning sr.proba "model_no_bureau")

/-- A Python runtime error escaping a handler (surfaced as a 500 by the
framework).  `nameError` names the undefined module-level variable. -/
inductive PyError where
  | nameError (missing : String)

/-- The startup block of `api.py` lines 63-74: a single `try` loads
`model_bureau` and then `model_no_bureau`; any exception is swallowed
(`except: print("Fail to Load Model")`), leaving every name whose
assignment did not execute unbound.  In particular a failure on the first
load leaves both names unbound. -/
def loadModels {Model : Type} (loadB loadNB : Option Model) :
    Option Model × Option Model :=
  match loadB with
  | none => (none, none)
  | some mb => (some mb, loadNB)

/-- The `/apiTest` handler run against the possibly-partial startup state:
referencing a model name whose assignment never executed raises a Python
`NameError`, which no code in `api.py` catches. -/
def testingLoaded {Feat Model : Type} (H : Helpers Feat Model)
    (st : Option Model × Option Model) (req : RequestBody) :
    Except PyError PyDict :=
  let req_dict := req.toDict
  let t := H.feature_engineering (H.parse_input req_dict)
  if truthyOpt (recGet req_dict "bureau") then
    match st.fst with
    | none => Except.error (PyError.nameError "model_bureau")
    | some m =>
      Except.ok [("LoanDecision", Val.vbool (H.predict_score t m).loanDec)]
  else
    match st.snd with
    | none => Except.error (PyError.nameError "model_no_bureau")
    | some m =>
      Except.ok [("LoanDecision", Val.vbool (H.predict_score t m).loanDec)]

/-- One entry of `RequestValidationError.errors()`: an error location
tuple and a human-readable message (location components modelled as
strings). -/
structure ErrItem where
  loc : List String
  msg : String

/-- The 422 `JSONResponse` the exception handler builds. -/
structure ErrResponse where
  status_code : Nat
  content : String

/-- The `RequestValidationError` handler of `api.py` lines 38-47: it reads
`detail[0]["msg"]` and `detail[0]["loc"][1]` without guarding, then
returns a 422 response whose content is `msg + ", field : " + loc[1]`.
An empty error list (IndexError on `detail[0]`) or a `loc` tuple shorter
than two (IndexError on `loc[1]`) makes the handler itself raise, embedded
as `none`. -/
def validation_exception_handler (errs : List ErrItem) :
    Option ErrResponse :=
  match errs with
  | [] => none
  | e :: _ =>
    match e.loc with
    | _ :: field :: _ => some ⟨422, e.msg ++ ", field : " ++ field⟩
    | _ => none

/-- The fixed ordered set of grade bands, best first. -/
def gradeLetters : List String := ["A", "B", "C", "D", "E"]

/-- Modelled from the spec: `grade_binning` is defined in `app.helper`,
which is not among the provided sources.  Spec 4.4: variant-specific
descending probability thresholds; the spec leaves the concrete threshold
values open, so a representative descending table per variant is used
(band boundaries inclusive from below). -/
def thresholdsFor (tag : String) : List ℚ :=
  if tag == "model_bureau" then [9/10, 8/10, 7/10, 6/10]
  else [17/20, 3/4, 13/20, 11/20]

/-- Index of the band a probability falls into: the number of thresholds
still strictly above it (0 = best band). -/
def bandIndex (ts : List ℚ) (p : ℚ) : Nat :=
  (ts.takeWhile (fun t => decide (p < t))).length

/-- Modelled from the spec: the Grade Binner — a pure total function from
a probability and a model-variant tag to a letter band. -/
def grade_binning (p : ℚ) (tag : String) : String :=
  gradeLetters.getD (bandIndex (thresholdsFor tag) p) "E"

/-- Rank of a grade band: 0 for the best band `A`, larger is worse. -/
def gradeRank (g : String) : Nat :=
  if g == "A" then 0
  else if g == "B" then 1
  else if g == "C" then 2
  else if g == "D" then 3
  else 4

/-- On the dict produced by `req.dict()`, the truthiness of the `bureau`
entry coincides with presence of the bureau object: `None` is falsy and a
present bureau is a two-entry (hence non-empty, hence truthy) dict. -/
theorem truthy_toDict (r : RequestBody) :
    truthyOpt (recGet r.toDict "bureau") = r.bureau.isSome := by
  obtain ⟨a, inc, g, ha, hi, e, p, b⟩ := r
  cases b <;> rfl

/-- When every value stored under the `bureau` key is a string (as is the
case for decoded form data), the Python truthiness test of the handler
coincides with the claim-side present-and-non-empty condition. -/
theorem truthy_form (d : PyDict)
    (hv : ∀ v, recGet d "bureau" = some v → ∃ s, v = Val.vstr s) :
    truthyOpt (recGet d "bureau") = formBureauGiven d := by
  cases h : recGet d "bureau" with
  | none => simp [truthyOpt, formBureauGiven, h]
  | some v =>
    obtain ⟨s, rfl⟩ := hv v h
    simp [truthyOpt, formBureauGiven, h, Val.truthy]

/-- C1: a record whose bureau field is present and non-empty is scored by
`model_bureau` (tag `model_bureau` in the HTML flow); one whose bureau is
absent, null or empty is scored by `model_no_bureau` (tag
`model_no_bureau`); no request is routed to the other variant.  Both
handlers coincide with the spec-side routed pipelines, for every
implementation of the helper functions. -/
theorem bureau_routing {Feat Model : Type} (H : Helpers Feat Model)
    (mb mnb : Model) :
    (∀ req : RequestBody, testing H mb mnb req = specRoutedJson H mb mnb req)
    ∧ (∀ d : PyDict,
        (∀ v, recGet d "bureau" = some v → ∃ s, v = Val.vstr s) →
        get_prediction H mb mnb d = specRoutedHtml H mb mnb d) := by
  constructor
  · intro req
    simp only [testing, specRoutedJson, truthy_toDict]
    cases hb : req.bureau <;> simp [hb]
  · intro d hv
    simp only [get_prediction, specRoutedHtml, truthy_form d hv]
    cases hfb : formBureauGiven d <;> simp [hfb]

/-- Witness for C1 at concrete inputs. -/
theorem bureau_routing_witness :
    (testing trivHelpers true false reqWithBureau
      = specRoutedJson trivHelpers true false reqWithBureau)
    ∧ (get_prediction trivHelpers true false formWithBureau
      = specRoutedHtml trivHelpers true false formWithBureau) :=
  ⟨(bureau_routing trivHelpers true false).1 reqWithBureau,
   (bureau_routing trivHelpers true false).2 formWithBureau (by
     intro v hv
     rw [show recGet formWithBureau "bureau" = some (Val.vstr "B-123")
       from rfl] at hv
     exact ⟨"B-123", (Option.some.inj hv).symm⟩)⟩

/-- C2: the successful `/apiTest` response is exactly
`{"LoanDecision": b}` with `b` the decision component of `predict_score`
for the selected model — a single key, no grade, no probability, for every
helper implementation. -/
theorem apiTest_response_exact {Feat Model : Type} (H : Helpers Feat Model)
    (mb mnb : Model) (req : RequestBody) :
    testing H mb mnb req =
      [("LoanDecision",
        Val.vbool ((H.predict_score
          (H.feature_engineering (H.parse_input req.toDict))
          (if req.bureau.isSome then mb else mnb)).loanDec))]
    ∧ (testing H mb mnb req).map Prod.fst = ["LoanDecision"] := by
  constructor
  · simp only [testing, truthy_toDict]
    cases hb : req.bureau.isSome <;> simp [hb]
  · simp only [testing]
    cases truthyOpt (recGet req.toDict "bureau") <;> rfl

/-- C3: the HTML flow renders the approve page iff the computed grade is
`A` or `B`, renders the reject page for every other grade, and passes the
grade in the template context. -/
theorem predict_page_by_grade {Feat Model : Type} (H : Helpers Feat Model)
    (mb mnb : Model) (d : PyDict) :
    ∃ g, (get_prediction H mb mnb d).context = [("grade", g)]
      ∧ ((get_prediction H mb mnb d).page = "result_approve.html"
          ↔ (g = "A" ∨ g = "B"))
      ∧ ((get_prediction H mb mnb d).page = "result_approve.html"
          ∨ (get_prediction H mb mnb d).page = "result_reject.html") := by
  obtain ⟨g, hg⟩ : ∃ g, get_prediction H mb mnb d =
      ⟨if g = "A" ∨ g = "B" then "result_approve.html"
        else "result_reject.html",
       [("grade", g)]⟩ :=
    ⟨(if truthyOpt (recGet d "bureau") then
        let sr := H.predict_score
          (H.feature_engineering (H.parse_input (H.parse_request d))) mb
        (sr, H.grade_binning sr.proba "model_bureau")
      else
        let sr := H.predict_score
          (H.feature_engineering (H.parse_input (H.parse_request d))) mnb
        (sr, H.grade_binning sr.proba "model_no_bureau")).snd, rfl⟩
  refine ⟨g, ?_, ?_, ?_⟩ <;> rw [hg]
  · by_cases h : (g = "A" ∨ g = "B") <;> simp [h]
  · by_cases h : (g = "A" ∨ g = "B") <;> simp [h]

/-- Witness for C3 at a concrete input (with `trivHelpers` the grade is
`A`, so the approve page is rendered). -/
theorem predict_page_by_grade_witness :
    ∃ g, (get_prediction trivHelpers true false formWithBureau).context
        = [("grade", g)]
      ∧ ((get_prediction trivHelpers true false formWithBureau).page
            = "result_approve.html" ↔ (g = "A" ∨ g = "B"))
      ∧ ((get_prediction trivHelpers true false formWithBureau).page
            = "result_approve.html"
        ∨ (get_prediction trivHelpers true false formWithBureau).page
            = "result_reject.html") :=
  predict_page_by_grade trivHelpers true false formWithBureau

/-- C10: the JSON flow never computes a grade — the `/apiTest` response is
invariant under replacing `grade_binning` by any other function, and it is
exactly the loan decision of `predict_score` on the selected model. -/
theorem apiTest_independent_of_grading {Feat Model : Type}
    (pr pin : PyDict → PyDict) (fe : PyDict → Feat)
    (ps : Feat → Model → ScoreResult) (g g2 : ℚ → String → String)
    (mb mnb : Model) (req : RequestBody) :
    testing ⟨pr, pin, fe, ps, g⟩ mb mnb req
      = testing ⟨pr, pin, fe, ps, g2⟩ mb mnb req
    ∧ testing ⟨pr, pin, fe, ps, g⟩ mb mnb req
      = [("LoanDecision",
          Val.vbool ((ps (fe (pin req.toDict))
            (if truthyOpt (recGet req.toDict "bureau") then mb
             else mnb)).loanDec))] := by
  constructor
  · rfl
  · simp only [testing]
    cases truthyOpt (recGet req.toDict "bureau") <;> simp

/-- C6: the pipeline is deterministic and stateless across requests —
running either handler a second time on the identical record, starting
from the state the first run left behind, yields the identical response,
the identical internal score/probability/decision/grade, and leaves the
state equal to the original one. -/
theorem pipeline_deterministic {Feat Model : Type} (H : Helpers Feat Model)
    (st : AppState Model) (d : PyDict) (req : RequestBody) :
    ((get_predictionS H (get_predictionS H st d).snd d).fst
        = (get_predictionS H st d).fst
      ∧ (get_predictionS H (get_predictionS H st d).snd d).snd = st)
    ∧ ((testingS H (testingS H st req).snd req).fst
        = (testingS H st req).fst
      ∧ (testingS H (testingS H st req).snd req).snd = st)
    ∧ scoreParts H (get_predictionS H st d).snd d = scoreParts H st d :=
  ⟨⟨rfl, rfl⟩, ⟨rfl, rfl⟩, rfl⟩

/-- C8: handling a request never mutates the model state — after either
handler completes, the process state, and in particular both model
objects, are unchanged. -/
theorem handlers_preserve_models {Feat Model : Type} (H : Helpers Feat Model)
    (st : AppState Model) (d : PyDict) (req : RequestBody) :
    (get_predictionS H st d).snd = st
    ∧ (testingS H st req).snd = st
    ∧ (get_predictionS H st d).snd.model_bureau = st.model_bureau
    ∧ (testingS H st req).snd.model_no_bureau = st.model_no_bureau :=
  ⟨rfl, rfl, rfl, rfl⟩

/-- Counterexample to C5: when loading the bureau model fails at startup,
the bureau-absent variant does not keep serving, even though its artifact
was loadable — a bureau-less request dies with an uncaught `NameError`
(a 500), not a clear ScoringError. -/
theorem model_load_failure_cex :
    testingLoaded trivHelpers (loadModels none (some false)) reqNoBureau
      = Except.error (PyError.nameError "model_no_bureau") := rfl

/-- C5 as amended: a startup load failure is swallowed; if the bureau
model fails to load, neither name is bound and every request fails with an
uncaught `NameError`; if only the bureau-absent model fails, bureau
requests keep serving while bureau-less requests fail with `NameError` —
never a ScoringError, never a silent fallback. -/
theorem model_load_behavior {Feat Model : Type} (H : Helpers Feat Model) :
    (∀ lnb : Option Model, loadModels none lnb = (none, none))
    ∧ (∀ (lnb : Option Model) (req : RequestBody), ∃ missing,
        testingLoaded H (loadModels none lnb) req
          = Except.error (PyError.nameError missing))
    ∧ (∀ (m : Model) (req : RequestBody), req.bureau.isSome = true →
        testingLoaded H (loadModels (some m) none) req
          = Except.ok [("LoanDecision",
              Val.vbool ((H.predict_score (H.feature_engineering
                (H.parse_input req.toDict)) m).loanDec))])
    ∧ (∀ (m : Model) (req : RequestBody), req.bureau.isSome = false →
        testingLoaded H (loadModels (some m) none) req
          = Except.error (PyError.nameError "model_no_bureau")) := by
  refine ⟨fun _ => rfl, ?_, ?_, ?_⟩
  · intro lnb req
    simp only [testingLoaded, loadModels, truthy_toDict]
    cases hb : req.bureau.isSome
    · exact ⟨"model_no_bureau", by simp⟩
    · exact ⟨"model_bureau", by simp⟩
  · intro m req h
    simp [testingLoaded, loadModels, truthy_toDict, h]
  · intro m req h
    simp [testingLoaded, loadModels, truthy_toDict, h]

/-- Witness for the amended C5 at concrete inputs: with only the
bureau-absent artifact failed, a bureau request is served and a
bureau-less request raises `NameError`. -/
theorem model_load_behavior_witness :
    reqWithBureau.bureau.isSome = true
    ∧ testingLoaded trivHelpers (loadModels (some true) none) reqWithBureau
        = Except.ok [("LoanDecision",
            Val.vbool ((trivHelpers.predict_score
              (trivHelpers.feature_engineering
                (trivHelpers.parse_input reqWithBureau.toDict))
              true).loanDec))]
    ∧ reqNoBureau.bureau.isSome = false
    ∧ testingLoaded trivHelpers (loadModels (some true) none) reqNoBureau
        = Except.error (PyError.nameError "model_no_bureau") :=
  ⟨rfl,
   (model_load_behavior trivHelpers).2.2.1 true reqWithBureau rfl,
   rfl,
   (model_load_behavior trivHelpers).2.2.2 true reqNoBureau rfl⟩

/-- C4: evaluating the handler at the error FastAPI raises for an entirely
missing JSON body — a single error with `loc == ("body",)` — shows the
handler's own `loc[1]` indexing failing (an IndexError escaping as a 500)
instead of the documented 422 response. -/
theorem missing_body_handler_crashes :
    validation_exception_handler [⟨["body"], "field required"⟩] = none := rfl

/-- C9: the handler is partial — it produces its (always 422) response
exactly when the error list is non-empty and the first error's `loc` tuple
has at least two components; for any other shape its own indexing fails. -/
theorem handler_shape_requirements (errs : List ErrItem) :
    ((validation_exception_handler errs).isSome
      ↔ ∃ e t, errs = e :: t ∧ 2 ≤ e.loc.length)
    ∧ (∀ r, validation_exception_handler errs = some r →
        r.status_code = 422) := by
  constructor
  · cases errs with
    | nil => simp [validation_exception_handler]
    | cons e t =>
      obtain ⟨loc, msg⟩ := e
      rcases loc with _ | ⟨a, _ | ⟨b, rest⟩⟩ <;>
        simp [validation_exception_handler]
  · intro r hr
    cases errs with
    | nil => simp [validation_exception_handler] at hr
    | cons e t =>
      obtain ⟨loc, msg⟩ := e
      rcases loc with _ | ⟨a, _ | ⟨b, rest⟩⟩ <;>
        simp [validation_exception_handler] at hr <;>
        simp [← hr]

/-- Witness for C9: the well-shaped error FastAPI produces for a record
missing `age` makes the handler return, and the response is the 422 one. -/
theorem handler_shape_requirements_witness :
    (validation_exception_handler [⟨["body", "age"], "field required"⟩]).isSome
    ∧ validation_exception_handler [⟨["body", "age"], "field required"⟩]
        = some ⟨422, "field required, field : age"⟩
    ∧ (⟨422, "field required, field : age"⟩ : ErrResponse).status_code
        = 422 :=
  ⟨(handler_shape_requirements
      [⟨["body", "age"], "field required"⟩]).1.mpr
    ⟨⟨["body", "age"], "field required"⟩, [], rfl, by decide⟩,
   rfl,
   (handler_shape_requirements [⟨["body", "age"], "field required"⟩]).2
     ⟨422, "field required, field : age"⟩ rfl⟩

/-- Raising the probability can only shrink the set of thresholds still
strictly above it, so the band index never grows. -/
theorem bandIndex_antitone (ts : List ℚ) {p1 p2 : ℚ} (h : p1 ≤ p2) :
    bandIndex ts p2 ≤ bandIndex ts p1 := by
  induction ts with
  | nil => exact Nat.le_refl _
  | cons t ts ih =>
    by_cases h2 : p2 < t
    · have h1 : p1 < t := lt_of_le_of_lt h h2
      have e1 : bandIndex (t :: ts) p1 = bandIndex ts p1 + 1 := by
        simp [bandIndex, List.takeWhile_cons, h1]
      have e2 : bandIndex (t :: ts) p2 = bandIndex ts p2 + 1 := by
        simp [bandIndex, List.takeWhile_cons, h2]
      rw [e1, e2]
      omega
    · have e2 : bandIndex (t :: ts) p2 = 0 := by
        simp [bandIndex, List.takeWhile_cons, h2]
      rw [e2]
      exact Nat.zero_le _

/-- The band index never exceeds the number of thresholds. -/
theorem bandIndex_le_length (ts : List ℚ) (p : ℚ) :
    bandIndex ts p ≤ ts.length :=
  (List.takeWhile_sublist _).length_le

/-- Both variant threshold tables have four entries. -/
theorem thresholdsFor_length (tag : String) :
    (thresholdsFor tag).length = 4 := by
  unfold thresholdsFor
  split <;> rfl

/-- On indices up to 4 the rank of the selected letter is the index. -/
theorem gradeRank_getD (i : Nat) (h : i ≤ 4) :
    gradeRank (gradeLetters.getD i "E") = i := by
  interval_cases i <;> rfl

/-- Letters at indices up to 4 belong to the fixed band set. -/
theorem getD_mem_gradeLetters (i : Nat) (h : i ≤ 4) :
    gradeLetters.getD i "E" ∈ gradeLetters := by
  interval_cases i <;> simp [gradeLetters]

/-- C7: the grade binner is total on [0,1] — every probability gets a
grade from the fixed band set — and monotonic for each fixed variant tag:
a higher probability never gets a strictly worse (higher-rank) band. -/
theorem grade_binning_total_monotone (tag : String) (p1 p2 : ℚ)
    (h0 : 0 ≤ p1) (h12 : p1 ≤ p2) (h1 : p2 ≤ 1) :
    grade_binning p2 tag ∈ gradeLetters
    ∧ gradeRank (grade_binning p2 tag)
        ≤ gradeRank (grade_binning p1 tag) := by
  have hb2 : bandIndex (thresholdsFor tag) p2 ≤ 4 := by
    have := bandIndex_le_length (thresholdsFor tag) p2
    rwa [thresholdsFor_length] at this
  have hb1 : bandIndex (thresholdsFor tag) p1 ≤ 4 := by
    have := bandIndex_le_length (thresholdsFor tag) p1
    rwa [thresholdsFor_length] at this
  constructor
  · exact getD_mem_gradeLetters _ hb2
  · rw [grade_binning, grade_binning, gradeRank_getD _ hb2,
      gradeRank_getD _ hb1]
    exact bandIndex_antitone _ h12

/-- Witness for C7 at concrete probabilities within [0,1]. -/
theorem grade_binning_total_monotone_witness :
    (0:ℚ) ≤ 13/20 ∧ (13/20:ℚ) ≤ 19/20 ∧ (19/20:ℚ) ≤ 1
    ∧ (grade_binning (19/20) "model_bureau" ∈ gradeLetters
      ∧ gradeRank (grade_binning (19/20) "model_bureau")
          ≤ gradeRank (grade_binning (13/20) "model_bureau")) :=
  ⟨by norm_num, by norm_num, by norm_num,
   grade_binning_total_monotone "model_bureau" (13/20) (19/20)
     (by norm_num) (by norm_num) (by norm_num)⟩
